import Mathlib

/-!
Verification of the opencode-sfx plugin's core: theme-profile assignment
(`determineProfile`, `assignThemeToInstance`), the instance registry with
stale eviction (`cleanupStaleInstances`, `getAvailableThemes`), the theme
store's cache logic (`loadThemes`, `loadCache`, `loadThemeFromYaml` from
`src/lib/themes.ts`), the focus detector (`isPaneActive` and its probes),
and the playback gate (`playSound`, `playSoundAlways`).

The TypeScript source is embedded shallowly: JS objects used as string-keyed
maps become association lists with JS property-assignment semantics
(`jsInsert` replaces in place or appends), JS truthiness of optional strings
becomes `jsTruthy`, `Math.floor(Math.random() * n)` becomes `r * n / d` for
a rational sample `r / d` with `r < d`, and external command probes become
oracle fields of a world structure; where a claim is about which probes run,
the embedded function also returns the ordered list of probes it consulted.
-/

/-- Truthiness of a JS value that is either a string or null/undefined:
`null`, `undefined` and the empty string are falsy. -/
def jsTruthy : Option String → Bool
  | none => false
  | some s => s != ""

/-- Property read `m[k]` on a JS object used as a string-keyed map. -/
def jsLookup {α : Type} : List (String × α) → String → Option α
  | [], _ => none
  | p :: rest, k => if p.1 == k then some p.2 else jsLookup rest k

/-- Property write `m[k] = v` on a JS object: replaces the value of an
existing key in place, otherwise appends the new key at the end (JS
property insertion order). -/
def jsInsert {α : Type} : List (String × α) → String → α → List (String × α)
  | [], k, v => [(k, v)]
  | p :: rest, k, v => if p.1 == k then (k, v) :: rest else p :: jsInsert rest k v

/-- Removal of a key, as happens when `m[k] = undefined` is serialized by
`JSON.stringify` (the key is dropped) or when `delete m[k]` runs. -/
def jsErase {α : Type} (m : List (String × α)) (k : String) : List (String × α) :=
  m.filter (fun p => p.1 != k)

theorem jsLookup_insert_self {α : Type} (m : List (String × α)) (k : String) (v : α) :
    jsLookup (jsInsert m k v) k = some v := by
  induction m with
  | nil => simp [jsInsert, jsLookup]
  | cons p rest ih =>
      by_cases h : p.1 == k
      · simp [jsInsert, jsLookup, h]
      · simp only [jsInsert, h, if_false, Bool.false_eq_true]
        simp [jsLookup, h, ih]

theorem jsLookup_filter {α : Type} (m : List (String × α)) (k : String) (v : α)
    (p : String × α → Bool) (hl : jsLookup m k = some v) (hp : p (k, v) = true) :
    jsLookup (m.filter p) k = some v := by
  induction m with
  | nil => simp [jsLookup] at hl
  | cons q rest ih =>
      by_cases h : q.1 == k
      · simp only [jsLookup, h, if_true] at hl
        have hv : q.2 = v := by injection hl
        have hk : q.1 = k := by simpa using h
        have hq : q = (k, v) := by cases q; simp_all
        subst hq
        simp [List.filter, hp, jsLookup]
      · simp only [jsLookup, h, if_false, Bool.false_eq_true] at hl
        by_cases hq : p q
        · simp [List.filter, hq, jsLookup, h, ih hl]
        · simp only [List.filter, hq, Bool.false_eq_true, if_false]
          exact ih hl

/-! ## JS string primitives

The JS string methods the source uses are modeled on the character
sequence of the string (the library's byte-position-based versions do not
reduce inside the kernel). -/

/-- Whether the first character list is an initial segment of the second. -/
def charsStart : List Char → List Char → Bool
  | [], _ => true
  | _ :: _, [] => false
  | a :: as, b :: bs => a == b && charsStart as bs

/-- JS `s.startsWith(p)`. -/
def jsStartsWith (s p : String) : Bool := charsStart p.toList s.toList

/-- JS `s.endsWith(p)`. -/
def jsEndsWith (s p : String) : Bool := charsStart p.toList.reverse s.toList.reverse

/-- JS `s.slice(0, s.length - n)` as used via `basename(file, ext)`. -/
def jsDropRight (s : String) (n : Nat) : String := ⟨s.toList.take (s.toList.length - n)⟩

/-- Whether `sub` occurs contiguously in the character list. -/
def charsHasSub (sub : List Char) : List Char → Bool
  | [] => charsStart sub []
  | a :: rest => charsStart sub (a :: rest) || charsHasSub sub rest

/-- JS `s.includes(sub)`. -/
def jsIncludes (s sub : String) : Bool := charsHasSub sub.toList s.toList

/-- JS `s.toLowerCase()`. -/
def jsToLower (s : String) : String := ⟨s.toList.map Char.toLower⟩

/-- Split of a character list at a separator character, JS `split` style:
the empty list yields one empty field and consecutive separators yield
empty fields. -/
def charsSplitOn (sep : Char) : List Char → List (List Char)
  | [] => [[]]
  | c :: rest =>
    let r := charsSplitOn sep rest
    if c == sep then [] :: r
    else
      match r with
      | [] => [[c]]
      | h :: t => (c :: h) :: t

/-- JS `s.split(sep)` for a one-character separator. -/
def jsSplit (s : String) (sep : Char) : List String :=
  (charsSplitOn sep s.toList).map (fun l => ⟨l⟩)

/-! ## Instance registry (part_000, `INSTANCE STATE MANAGEMENT`) -/

/-- One entry of the instance table: `{ theme: themeKey, startedAt: ISO8601 }`.
`startedAt` is embedded as the epoch-milliseconds value that
`new Date(info.startedAt).getTime()` recovers; `theme` is optional because a
JS record whose theme was `undefined` loses the key on JSON round-trip. -/
structure InstanceInfo where
  theme : Option String
  startedAt : Int
deriving Repr, DecidableEq

/-- The persisted instance table `{ instances: { [pid]: InstanceInfo } }`. -/
structure InstanceState where
  instances : List (String × InstanceInfo)
deriving Repr, DecidableEq

/-- The 24-hour staleness ceiling, in milliseconds. -/
def maxAgeMs : Int := 24 * 60 * 60 * 1000

/-- Embeds `cleanupStaleInstances`: deletes every entry with
`now - startedAt > maxAge`. -/
def cleanupStaleInstances (now : Int) (s : InstanceState) : InstanceState :=
  ⟨s.instances.filter (fun pi => !(decide (now - pi.2.startedAt > maxAgeMs)))⟩

/-- Embeds `getAvailableThemes`: all theme keys minus the themes used by
instance records; the full list when that difference is empty. -/
def getAvailableThemes (allThemes : List String) (s : InstanceState) : List String :=
  let usedThemes : List (Option String) := s.instances.map (fun i => i.2.theme)
  let available := allThemes.filter (fun t => !(usedThemes.contains (some t)))
  if available.length > 0 then available else allThemes

/-! ## TTY profile mapping (part_000, `TTY PROFILE MANAGEMENT`) -/

/-- Embeds `getTtyProfile`: `data.profiles[tty] || null` — a stored empty
string reads back as null. -/
def getTtyProfile (profiles : List (String × String)) (tty : String) : Option String :=
  match jsLookup profiles tty with
  | some s => if s == "" then none else some s
  | none => none

/-! ## Profile assignment engine (part_000, `determineProfile` and
`assignThemeToInstance`) -/

/-- The process environment and persisted state visible to
`determineProfile`: the `OCSFX_PROFILE` variable, the `.ocsfx` directory
file content, the resolved TTY identifier, the two persisted JSON documents,
the current time, and the `Math.random()` sample expressed as `r / d`. -/
structure ProcEnv where
  envProfile : Option String
  dirProfile : Option String
  tty : Option String
  ttyProfiles : List (String × String)
  instancesFile : InstanceState
  now : Int
  r : Nat
  d : Nat
deriving Repr, DecidableEq

/-- Result of `determineProfile`, together with the TTY→profile mapping as
persisted after its possible `setTtyProfile` side effect. `profile` is
optional because indexing an empty array yields `undefined`. -/
structure ProfileResult where
  profile : Option String
  source : String
  ttyProfiles : List (String × String)
deriving Repr, DecidableEq

/-- Embeds `determineProfile` with its four priority tiers: env override,
directory file, TTY mapping, random pick (persisted to the TTY mapping when
a TTY identifier resolves). -/
def determineProfile (allThemes : List String) (e : ProcEnv) : ProfileResult :=
  if jsTruthy e.envProfile && allThemes.contains (e.envProfile.getD "") then
    { profile := e.envProfile, source := "env", ttyProfiles := e.ttyProfiles }
  else if jsTruthy e.dirProfile && allThemes.contains (e.dirProfile.getD "") then
    { profile := e.dirProfile, source := "file", ttyProfiles := e.ttyProfiles }
  else
    let ttyHit : Option String :=
      match e.tty with
      | some t =>
        if t != "" then
          match getTtyProfile e.ttyProfiles t with
          | some tp => if tp != "" && allThemes.contains tp then some tp else none
          | none => none
        else none
      | none => none
    match ttyHit with
    | some tp => { profile := some tp, source := "tty", ttyProfiles := e.ttyProfiles }
    | none =>
      let state := cleanupStaleInstances e.now e.instancesFile
      let availableThemes := getAvailableThemes allThemes state
      let randomProfile := availableThemes.get? (e.r * availableThemes.length / e.d)
      let newTtyProfiles :=
        if jsTruthy e.tty then
          match randomProfile with
          | some p => jsInsert e.ttyProfiles (e.tty.getD "") p
          | none => jsErase e.ttyProfiles (e.tty.getD "")
        else e.ttyProfiles
      { profile := randomProfile, source := "random", ttyProfiles := newTtyProfiles }

/-- Result of `assignThemeToInstance`, together with the instance table and
TTY mapping as persisted after the call. -/
structure AssignResult where
  theme : Option String
  source : String
  instancesFile : InstanceState
  ttyProfiles : List (String × String)
deriving Repr, DecidableEq

/-- Embeds `assignThemeToInstance`: evict stale records, return the existing
record for this pid if present (no write), otherwise resolve via
`determineProfile` and register this pid with the resolved theme. -/
def assignThemeToInstance (allThemes : List String) (pid : String) (e : ProcEnv) :
    AssignResult :=
  let state := cleanupStaleInstances e.now e.instancesFile
  match jsLookup state.instances pid with
  | some info =>
    { theme := info.theme, source := "instance",
      instancesFile := e.instancesFile, ttyProfiles := e.ttyProfiles }
  | none =>
    let res := determineProfile allThemes e
    let state2 : InstanceState :=
      ⟨jsInsert state.instances pid { theme := res.profile, startedAt := e.now }⟩
    { theme := res.profile, source := res.source,
      instancesFile := state2, ttyProfiles := res.ttyProfiles }

/-- Claim C7: stale eviction removes exactly the instance records whose
start time is more than 24 hours before the current time: a record survives
the eviction pass iff it was present and `now - startedAt ≤ 24h`; a record
at most 24 hours old (in particular one started 1 second ago) is kept
unchanged, and a record more than 24 hours old is absent afterwards. -/
theorem cleanupStale_removes_exactly_older_than_24h :
    (∀ (now : Int) (s : InstanceState) (p : String × InstanceInfo),
      p ∈ (cleanupStaleInstances now s).instances ↔
        p ∈ s.instances ∧ ¬(now - p.2.startedAt > maxAgeMs))
    ∧ (∀ (now : Int) (s : InstanceState) (p : String × InstanceInfo),
        p ∈ s.instances → now - p.2.startedAt ≤ maxAgeMs →
        p ∈ (cleanupStaleInstances now s).instances)
    ∧ (∀ (now : Int) (s : InstanceState) (p : String × InstanceInfo),
        p ∈ s.instances → p.2.startedAt = now - 1000 →
        p ∈ (cleanupStaleInstances now s).instances) := by
  refine ⟨?_, ?_, ?_⟩
  · intro now s p
    simp [cleanupStaleInstances, List.mem_filter]
  · intro now s p hp hle
    simp only [cleanupStaleInstances, List.mem_filter]
    exact ⟨hp, by simpa using not_lt.mpr hle⟩
  · intro now s p hp hstart
    simp only [cleanupStaleInstances, List.mem_filter]
    refine ⟨hp, ?_⟩
    simp only [hstart, maxAgeMs]
    simp only [Bool.not_eq_true', decide_eq_false_iff_not]
    omega

/-- Witness for C7 at a concrete table: a record 1 second old survives the
pass and a record 25 hours old is removed (via the `exactly` direction). -/
theorem cleanupStale_removes_exactly_older_than_24h_witness :
    ("fresh", ({ theme := some "marine", startedAt := 100000000 - 1000 } : InstanceInfo)) ∈
      (cleanupStaleInstances 100000000
        ⟨[("fresh", { theme := some "marine", startedAt := 100000000 - 1000 }),
          ("old", { theme := some "ghost", startedAt := 100000000 - 25 * 60 * 60 * 1000 })]⟩).instances
    ∧ ¬ (("old", ({ theme := some "ghost", startedAt := 100000000 - 25 * 60 * 60 * 1000 } : InstanceInfo)) ∈
      (cleanupStaleInstances 100000000
        ⟨[("fresh", { theme := some "marine", startedAt := 100000000 - 1000 }),
          ("old", { theme := some "ghost", startedAt := 100000000 - 25 * 60 * 60 * 1000 })]⟩).instances) := by
  constructor
  · exact cleanupStale_removes_exactly_older_than_24h.2.2 100000000 _ _ (by decide) (by decide)
  · intro h
    have := (cleanupStale_removes_exactly_older_than_24h.1 100000000
      ⟨[("fresh", { theme := some "marine", startedAt := 100000000 - 1000 }),
        ("old", { theme := some "ghost", startedAt := 100000000 - 25 * 60 * 60 * 1000 })]⟩
      ("old", { theme := some "ghost", startedAt := 100000000 - 25 * 60 * 60 * 1000 })).mp h
    revert this
    decide

/-! ## Helper lemmas about the embedded functions -/

theorem jsTruthy_iff (o : Option String) :
    jsTruthy o = true ↔ ∃ s, o = some s ∧ s ≠ "" := by
  cases o <;> simp [jsTruthy]

theorem rand_index_lt (r d n : Nat) (hr : r < d) (hn : 0 < n) : r * n / d < n := by
  have hd : 0 < d := Nat.lt_of_le_of_lt (Nat.zero_le r) hr
  rw [Nat.div_lt_iff_lt_mul hd]
  calc r * n < d * n := (Nat.mul_lt_mul_right hn).mpr hr
    _ = n * d := Nat.mul_comm d n

theorem getAvailableThemes_ne_nil (allThemes : List String) (s : InstanceState)
    (h : allThemes ≠ []) : getAvailableThemes allThemes s ≠ [] := by
  simp only [getAvailableThemes]
  split
  · rename_i hlen
    intro hnil
    rw [hnil] at hlen
    simp at hlen
  · exact h

theorem getAvailableThemes_subset (allThemes : List String) (s : InstanceState)
    (x : String) (hx : x ∈ getAvailableThemes allThemes s) : x ∈ allThemes := by
  simp only [getAvailableThemes] at hx
  split at hx
  · exact (List.mem_filter.mp hx).1
  · exact hx

/-- Claim C1: `determineProfile` follows the strict priority order with
first match winning: with all three sources naming distinct valid keys the
env override wins with source `env`; with no env and no file override but a
valid TTY mapping the TTY value wins with source `tty`; and an override
(env or file) naming a key absent from the theme store is skipped, the
result being exactly that of the environment with that override removed. -/
theorem determineProfile_priority :
    (∀ (allThemes : List String) (e : ProcEnv) (ev dv t tv : String),
      e.envProfile = some ev → e.dirProfile = some dv → e.tty = some t →
      getTtyProfile e.ttyProfiles t = some tv →
      ev ≠ "" → ev ∈ allThemes → dv ∈ allThemes → tv ∈ allThemes →
      ev ≠ dv → dv ≠ tv → ev ≠ tv →
      determineProfile allThemes e =
        { profile := some ev, source := "env", ttyProfiles := e.ttyProfiles })
    ∧ (∀ (allThemes : List String) (e : ProcEnv) (t tv : String),
      e.envProfile = none → e.dirProfile = none → e.tty = some t → t ≠ "" →
      getTtyProfile e.ttyProfiles t = some tv → tv ∈ allThemes →
      determineProfile allThemes e =
        { profile := some tv, source := "tty", ttyProfiles := e.ttyProfiles })
    ∧ (∀ (allThemes : List String) (e : ProcEnv) (ev : String),
      e.envProfile = some ev → ev ∉ allThemes →
      determineProfile allThemes e =
        determineProfile allThemes { e with envProfile := none })
    ∧ (∀ (allThemes : List String) (e : ProcEnv) (dv : String),
      e.dirProfile = some dv → dv ∉ allThemes →
      determineProfile allThemes e =
        determineProfile allThemes { e with dirProfile := none }) := by
  refine ⟨?_, ?_, ?_, ?_⟩
  · intro allThemes e ev dv t tv he hd ht htv hev hmem _ _ _ _ _
    simp [determineProfile, he, jsTruthy, bne_iff_ne, hev, hmem]
  · intro allThemes e t tv he hd ht htne hlp hmem
    have htvne : tv ≠ "" := by
      intro h
      rw [h] at hlp
      simp only [getTtyProfile] at hlp
      split at hlp
      · split at hlp
        · exact absurd hlp (by simp)
        · rename_i heq _
          simp_all
      · exact absurd hlp (by simp)
    simp [determineProfile, he, hd, ht, jsTruthy, bne_iff_ne, htne, hlp, htvne, hmem]
  · intro allThemes e ev he hnm
    simp [determineProfile, he, jsTruthy, hnm]
  · intro allThemes e dv hd hnm
    simp [determineProfile, hd, jsTruthy, hnm]

/-- Witness for C1 at concrete inputs: with env override `alpha`, directory
file `beta`, and a TTY mapping to `gamma` (all valid, all distinct), the
result is `alpha` from source `env`; with no env and no file override the
TTY mapping wins; and an env override naming the absent key `delta` falls
through exactly as if it were unset. -/
theorem determineProfile_priority_witness :
    determineProfile ["alpha", "beta", "gamma"]
      { envProfile := some "alpha", dirProfile := some "beta", tty := some "tty-1",
        ttyProfiles := [("tty-1", "gamma")], instancesFile := ⟨[]⟩,
        now := 0, r := 0, d := 1 } =
      { profile := some "alpha", source := "env", ttyProfiles := [("tty-1", "gamma")] }
    ∧ determineProfile ["alpha", "beta", "gamma"]
      { envProfile := none, dirProfile := none, tty := some "tty-1",
        ttyProfiles := [("tty-1", "gamma")], instancesFile := ⟨[]⟩,
        now := 0, r := 0, d := 1 } =
      { profile := some "gamma", source := "tty", ttyProfiles := [("tty-1", "gamma")] }
    ∧ determineProfile ["alpha", "beta", "gamma"]
      { envProfile := some "delta", dirProfile := none, tty := some "tty-1",
        ttyProfiles := [("tty-1", "gamma")], instancesFile := ⟨[]⟩,
        now := 0, r := 0, d := 1 } =
      determineProfile ["alpha", "beta", "gamma"]
      { envProfile := none, dirProfile := none, tty := some "tty-1",
        ttyProfiles := [("tty-1", "gamma")], instancesFile := ⟨[]⟩,
        now := 0, r := 0, d := 1 } := by
  refine ⟨?_, ?_, ?_⟩
  · exact determineProfile_priority.1 _ _ "alpha" "beta" "tty-1" "gamma"
      (by decide) (by decide) (by decide) (by decide) (by decide) (by decide)
      (by decide) (by decide) (by decide) (by decide) (by decide)
  · exact determineProfile_priority.2.1 _ _ "tty-1" "gamma"
      (by decide) (by decide) (by decide) (by decide) (by decide) (by decide)
  · exact determineProfile_priority.2.2.1 _ _ "delta" (by decide) (by decide)

/-- Claim C10: `determineProfile` returns an actual theme key only when the
theme store is non-empty: with an empty store every call lands in the
random tier and yields an absent (`undefined`) profile with source
`random`; conversely with a non-empty store and a genuine random sample
`r / d < 1`, the returned profile is some key of the store. -/
theorem determineProfile_empty_store_undefined :
    (∀ e : ProcEnv,
      (determineProfile [] e).profile = none ∧ (determineProfile [] e).source = "random")
    ∧ (∀ (allThemes : List String) (e : ProcEnv), allThemes ≠ [] → e.r < e.d →
        ∃ p, (determineProfile allThemes e).profile = some p ∧ p ∈ allThemes) := by
  constructor
  · intro e
    have hav : getAvailableThemes [] (cleanupStaleInstances e.now e.instancesFile) = [] := by
      simp [getAvailableThemes]
    rcases ht : e.tty with _ | t
    · simp [determineProfile, ht, jsTruthy, hav]
    · by_cases htne : t = ""
      · simp [determineProfile, ht, jsTruthy, htne, hav]
      · rcases hlp : getTtyProfile e.ttyProfiles t with _ | tp
        · simp [determineProfile, ht, jsTruthy, htne, hlp, hav]
        · simp [determineProfile, ht, jsTruthy, htne, hlp, hav]
  · intro allThemes e hne hr
    simp only [determineProfile]
    split
    · rename_i h
      have h1 := (Bool.and_eq_true _ _).mp h
      obtain ⟨s, hs, hsne⟩ := (jsTruthy_iff _).mp h1.1
      refine ⟨s, by simp [hs], ?_⟩
      have := h1.2
      rw [hs] at this
      simpa using this
    · split
      · rename_i h
        have h1 := (Bool.and_eq_true _ _).mp h
        obtain ⟨s, hs, hsne⟩ := (jsTruthy_iff _).mp h1.1
        refine ⟨s, by simp [hs], ?_⟩
        have := h1.2
        rw [hs] at this
        simpa using this
      · split
        · rename_i tp hhit
          refine ⟨tp, by simp, ?_⟩
          split at hhit
          · split at hhit
            · split at hhit
              · split at hhit
                · rename_i hcond
                  injection hhit with h2
                  subst h2
                  simpa using ((Bool.and_eq_true _ _).mp hcond).2
                · simp at hhit
              · simp at hhit
            · simp at hhit
          · simp at hhit
        · have hav := getAvailableThemes_ne_nil allThemes
            (cleanupStaleInstances e.now e.instancesFile) hne
          have hlen : 0 < (getAvailableThemes allThemes
              (cleanupStaleInstances e.now e.instancesFile)).length :=
            List.length_pos.mpr hav
          have hlt := rand_index_lt e.r e.d _ hr hlen
          refine ⟨(getAvailableThemes allThemes
              (cleanupStaleInstances e.now e.instancesFile)).get ⟨_, hlt⟩, ?_, ?_⟩
          · simp [List.get?_eq_get hlt]
          · exact getAvailableThemes_subset _ _ _ (List.get_mem _ _ hlt)

/-- Witness for C10: with the two-theme store `marine`/`ghost` and sample
`1/2`, a key of the store is returned. -/
theorem determineProfile_empty_store_undefined_witness :
    ∃ p, (determineProfile ["marine", "ghost"]
      { envProfile := none, dirProfile := none, tty := none, ttyProfiles := [],
        instancesFile := ⟨[]⟩, now := 0, r := 1, d := 2 }).profile = some p
      ∧ p ∈ ["marine", "ghost"] :=
  determineProfile_empty_store_undefined.2 ["marine", "ghost"]
    { envProfile := none, dirProfile := none, tty := none, ttyProfiles := [],
      instancesFile := ⟨[]⟩, now := 0, r := 1, d := 2 } (by decide) (by decide)

/-! ## Further helper lemmas for the random and tty tiers -/

theorem getTtyProfile_some_ne_empty (profiles : List (String × String)) (tty tv : String)
    (h : getTtyProfile profiles tty = some tv) : tv ≠ "" := by
  simp only [getTtyProfile] at h
  split at h
  · split at h
    · simp at h
    · rename_i hne
      injection h with h2
      subst h2
      simpa using hne
  · simp at h

theorem determineProfile_random_no_tty (allThemes : List String) (e : ProcEnv)
    (h1 : e.envProfile = none) (h2 : e.dirProfile = none) (h3 : e.tty = none) :
    determineProfile allThemes e =
      { profile := (getAvailableThemes allThemes (cleanupStaleInstances e.now e.instancesFile)).get?
          (e.r * (getAvailableThemes allThemes (cleanupStaleInstances e.now e.instancesFile)).length / e.d),
        source := "random", ttyProfiles := e.ttyProfiles } := by
  simp [determineProfile, h1, h2, h3, jsTruthy]

theorem determineProfile_random_with_tty (allThemes : List String) (e : ProcEnv) (t : String)
    (h1 : e.envProfile = none) (h2 : e.dirProfile = none) (h3 : e.tty = some t)
    (h4 : t ≠ "") (h5 : getTtyProfile e.ttyProfiles t = none) :
    determineProfile allThemes e =
      { profile := (getAvailableThemes allThemes (cleanupStaleInstances e.now e.instancesFile)).get?
          (e.r * (getAvailableThemes allThemes (cleanupStaleInstances e.now e.instancesFile)).length / e.d),
        source := "random",
        ttyProfiles :=
          match (getAvailableThemes allThemes (cleanupStaleInstances e.now e.instancesFile)).get?
              (e.r * (getAvailableThemes allThemes (cleanupStaleInstances e.now e.instancesFile)).length / e.d) with
          | some p => jsInsert e.ttyProfiles t p
          | none => jsErase e.ttyProfiles t } := by
  simp [determineProfile, h1, h2, h3, h5, jsTruthy, bne_iff_ne, h4]

theorem determineProfile_tty_hit (allThemes : List String) (e : ProcEnv) (t tv : String)
    (h1 : e.envProfile = none) (h2 : e.dirProfile = none) (h3 : e.tty = some t)
    (h4 : t ≠ "") (h5 : getTtyProfile e.ttyProfiles t = some tv) (h6 : tv ≠ "")
    (h7 : tv ∈ allThemes) :
    determineProfile allThemes e =
      { profile := some tv, source := "tty", ttyProfiles := e.ttyProfiles } := by
  simp [determineProfile, h1, h2, h3, h5, jsTruthy, bne_iff_ne, h4, h6, h7]

/-- Claim C2: in the random tier (no env override, no directory file, no
resolvable TTY), the picked key is a member of the full theme set; if some
theme is not used by the live instance records that survive stale eviction,
the pick is not among the used themes; and if every theme is in use, the
candidate list falls back to the full theme set. -/
theorem determineProfile_random_avoids_used :
    ∀ (allThemes : List String) (e : ProcEnv),
      e.envProfile = none → e.dirProfile = none → e.tty = none →
      e.r < e.d → allThemes ≠ [] →
      (determineProfile allThemes e).source = "random" ∧
      (∃ p, (determineProfile allThemes e).profile = some p ∧ p ∈ allThemes ∧
        ((∃ t0, t0 ∈ allThemes ∧
            ((cleanupStaleInstances e.now e.instancesFile).instances.map
              (fun i => i.2.theme)).contains (some t0) = false) →
          ((cleanupStaleInstances e.now e.instancesFile).instances.map
            (fun i => i.2.theme)).contains (some p) = false)) ∧
      ((∀ t0, t0 ∈ allThemes →
          ((cleanupStaleInstances e.now e.instancesFile).instances.map
            (fun i => i.2.theme)).contains (some t0) = true) →
        getAvailableThemes allThemes (cleanupStaleInstances e.now e.instancesFile) = allThemes) := by
  intro allThemes e h1 h2 h3 hr hne
  rw [determineProfile_random_no_tty allThemes e h1 h2 h3]
  have havne : getAvailableThemes allThemes (cleanupStaleInstances e.now e.instancesFile) ≠ [] :=
    getAvailableThemes_ne_nil _ _ hne
  have hlen : 0 < (getAvailableThemes allThemes (cleanupStaleInstances e.now e.instancesFile)).length :=
    List.length_pos.mpr havne
  have hlt := rand_index_lt e.r e.d _ hr hlen
  refine ⟨rfl, ⟨(getAvailableThemes allThemes (cleanupStaleInstances e.now e.instancesFile)).get ⟨_, hlt⟩,
    by simp [List.get?_eq_get hlt], getAvailableThemes_subset _ _ _ (List.get_mem _ _ hlt), ?_⟩, ?_⟩
  · rintro ⟨t0, ht0mem, ht0un⟩
    have ht0f : t0 ∈ allThemes.filter (fun x =>
        !(((cleanupStaleInstances e.now e.instancesFile).instances.map
          (fun i => i.2.theme)).contains (some x))) :=
      List.mem_filter.mpr ⟨ht0mem, by simp only [ht0un]; decide⟩
    have hfne : allThemes.filter (fun x =>
        !(((cleanupStaleInstances e.now e.instancesFile).instances.map
          (fun i => i.2.theme)).contains (some x))) ≠ [] := by
      intro hnil
      rw [hnil] at ht0f
      simp at ht0f
    have havf : getAvailableThemes allThemes (cleanupStaleInstances e.now e.instancesFile) =
        allThemes.filter (fun x =>
          !(((cleanupStaleInstances e.now e.instancesFile).instances.map
            (fun i => i.2.theme)).contains (some x))) := by
      simp only [getAvailableThemes]
      rw [if_pos]
      exact List.length_pos.mpr hfne
    have hsub : ∀ x, x ∈ getAvailableThemes allThemes
        (cleanupStaleInstances e.now e.instancesFile) →
        x ∈ allThemes.filter (fun x =>
          !(((cleanupStaleInstances e.now e.instancesFile).instances.map
            (fun i => i.2.theme)).contains (some x))) := by
      intro x hx
      rwa [havf] at hx
    have hpmem := hsub _ (List.get_mem (getAvailableThemes allThemes
      (cleanupStaleInstances e.now e.instancesFile)) _ hlt)
    have := (List.mem_filter.mp hpmem).2
    simpa using this
  · intro hall
    have hfil : allThemes.filter (fun x =>
        !(((cleanupStaleInstances e.now e.instancesFile).instances.map
          (fun i => i.2.theme)).contains (some x))) = [] := by
      rw [List.filter_eq_nil_iff]
      intro a ha
      simp only [hall a ha]
      decide
    simp only [getAvailableThemes]
    rw [hfil]
    simp

/-- Witness for C2 at a concrete state: themes `marine`/`ghost`, one live
instance occupying `marine`; the random tier picks a key of the store that
is not `marine`. -/
theorem determineProfile_random_avoids_used_witness :
    (determineProfile ["marine", "ghost"]
      { envProfile := none, dirProfile := none, tty := none, ttyProfiles := [],
        instancesFile := ⟨[("42", { theme := some "marine", startedAt := 0 })]⟩,
        now := 0, r := 0, d := 2 }).source = "random" ∧
    (∃ p, (determineProfile ["marine", "ghost"]
      { envProfile := none, dirProfile := none, tty := none, ttyProfiles := [],
        instancesFile := ⟨[("42", { theme := some "marine", startedAt := 0 })]⟩,
        now := 0, r := 0, d := 2 }).profile = some p ∧ p ∈ ["marine", "ghost"] ∧
      ((∃ t0, t0 ∈ ["marine", "ghost"] ∧
          (((cleanupStaleInstances 0
            ⟨[("42", { theme := some "marine", startedAt := 0 })]⟩).instances.map
            (fun i => i.2.theme)).contains (some t0)) = false) →
        (((cleanupStaleInstances 0
          ⟨[("42", { theme := some "marine", startedAt := 0 })]⟩).instances.map
          (fun i => i.2.theme)).contains (some p)) = false)) ∧
    ((∀ t0, t0 ∈ ["marine", "ghost"] →
        (((cleanupStaleInstances 0
          ⟨[("42", { theme := some "marine", startedAt := 0 })]⟩).instances.map
          (fun i => i.2.theme)).contains (some t0)) = true) →
      getAvailableThemes ["marine", "ghost"]
        (cleanupStaleInstances 0 ⟨[("42", { theme := some "marine", startedAt := 0 })]⟩) =
        ["marine", "ghost"]) :=
  determineProfile_random_avoids_used ["marine", "ghost"]
    { envProfile := none, dirProfile := none, tty := none, ttyProfiles := [],
      instancesFile := ⟨[("42", { theme := some "marine", startedAt := 0 })]⟩,
      now := 0, r := 0, d := 2 } rfl rfl rfl (by decide) (by decide)

/-- Claim C4: `assignThemeToInstance` is idempotent per process. If the
instance table already holds a non-stale record for this pid, the call
returns that record's theme with source `instance` and writes nothing; and
after a registering first call, a second call by the same process within
the 24-hour staleness window returns the same theme with source
`instance`. -/
theorem assignTheme_idempotent_per_process :
    (∀ (allThemes : List String) (pid : String) (e : ProcEnv) (info : InstanceInfo),
      jsLookup (cleanupStaleInstances e.now e.instancesFile).instances pid = some info →
      assignThemeToInstance allThemes pid e =
        { theme := info.theme, source := "instance",
          instancesFile := e.instancesFile, ttyProfiles := e.ttyProfiles })
    ∧ (∀ (allThemes : List String) (pid : String) (e : ProcEnv) (n2 : Int) (r2 d2 : Nat),
        jsLookup (cleanupStaleInstances e.now e.instancesFile).instances pid = none →
        n2 - e.now ≤ maxAgeMs →
        (assignThemeToInstance allThemes pid
          { e with instancesFile := (assignThemeToInstance allThemes pid e).instancesFile,
                   ttyProfiles := (assignThemeToInstance allThemes pid e).ttyProfiles,
                   now := n2, r := r2, d := d2 }).theme =
          (assignThemeToInstance allThemes pid e).theme ∧
        (assignThemeToInstance allThemes pid
          { e with instancesFile := (assignThemeToInstance allThemes pid e).instancesFile,
                   ttyProfiles := (assignThemeToInstance allThemes pid e).ttyProfiles,
                   now := n2, r := r2, d := d2 }).source = "instance") := by
  constructor
  · intro allThemes pid e info h
    simp [assignThemeToInstance, h]
  · intro allThemes pid e n2 r2 d2 hmiss hfresh
    have ha : assignThemeToInstance allThemes pid e =
        { theme := (determineProfile allThemes e).profile,
          source := (determineProfile allThemes e).source,
          instancesFile := ⟨jsInsert (cleanupStaleInstances e.now e.instancesFile).instances pid
            { theme := (determineProfile allThemes e).profile, startedAt := e.now }⟩,
          ttyProfiles := (determineProfile allThemes e).ttyProfiles } := by
      simp [assignThemeToInstance, hmiss]
    have hkeep : (fun pi : String × InstanceInfo =>
        !(decide (n2 - pi.2.startedAt > maxAgeMs)))
        (pid, { theme := (determineProfile allThemes e).profile, startedAt := e.now }) = true := by
      simp only [Bool.not_eq_true', decide_eq_false_iff_not]
      exact not_lt.mpr hfresh
    have hlk : jsLookup (cleanupStaleInstances n2
        ⟨jsInsert (cleanupStaleInstances e.now e.instancesFile).instances pid
          { theme := (determineProfile allThemes e).profile, startedAt := e.now }⟩).instances pid =
        some { theme := (determineProfile allThemes e).profile, startedAt := e.now } := by
      simp only [cleanupStaleInstances]
      exact jsLookup_filter _ _ _ _ (jsLookup_insert_self _ _ _) hkeep
    rw [ha]
    constructor
    · simp [assignThemeToInstance, hlk]
    · simp [assignThemeToInstance, hlk]

/-- Witness for C4: a process with pid `42` and a fresh record gets back
its recorded theme `marine` with source `instance` and no state change. -/
theorem assignTheme_idempotent_per_process_witness :
    assignThemeToInstance ["marine", "ghost"] "42"
      { envProfile := none, dirProfile := none, tty := none, ttyProfiles := [],
        instancesFile := ⟨[("42", { theme := some "marine", startedAt := 5 })]⟩,
        now := 10, r := 0, d := 2 } =
      { theme := some "marine", source := "instance",
        instancesFile := ⟨[("42", { theme := some "marine", startedAt := 5 })]⟩,
        ttyProfiles := [] } :=
  assignTheme_idempotent_per_process.1 ["marine", "ghost"] "42"
    { envProfile := none, dirProfile := none, tty := none, ttyProfiles := [],
      instancesFile := ⟨[("42", { theme := some "marine", startedAt := 5 })]⟩,
      now := 10, r := 0, d := 2 }
    { theme := some "marine", startedAt := 5 } (by decide)

/-- Claim C3: after the random tier fires with a resolvable TTY identifier,
the picked key is persisted into the TTY→profile mapping, so a subsequent
assignment by a different process in the same terminal session (same TTY,
no env or file override, key still in the store) returns the same key via
the `tty` tier instead of re-rolling. -/
theorem randomPick_persists_to_tty_mapping :
    ∀ (allThemes : List String) (e : ProcEnv) (pid1 pid2 t : String),
      e.envProfile = none → e.dirProfile = none → e.tty = some t → t ≠ "" →
      getTtyProfile e.ttyProfiles t = none →
      e.r < e.d → allThemes ≠ [] → "" ∉ allThemes →
      jsLookup (cleanupStaleInstances e.now e.instancesFile).instances pid1 = none →
      (assignThemeToInstance allThemes pid1 e).source = "random" ∧
      ∃ k, (assignThemeToInstance allThemes pid1 e).theme = some k ∧ k ∈ allThemes ∧
        ∀ e2 : ProcEnv, e2.envProfile = none → e2.dirProfile = none → e2.tty = some t →
          e2.ttyProfiles = (assignThemeToInstance allThemes pid1 e).ttyProfiles →
          jsLookup (cleanupStaleInstances e2.now e2.instancesFile).instances pid2 = none →
          (assignThemeToInstance allThemes pid2 e2).theme = some k ∧
          (assignThemeToInstance allThemes pid2 e2).source = "tty" := by
  intro allThemes e pid1 pid2 t h1 h2 h3 h4 h5 hr hne hnoemp hmiss1
  have havne : getAvailableThemes allThemes (cleanupStaleInstances e.now e.instancesFile) ≠ [] :=
    getAvailableThemes_ne_nil _ _ hne
  have hlen : 0 < (getAvailableThemes allThemes (cleanupStaleInstances e.now e.instancesFile)).length :=
    List.length_pos.mpr havne
  have hlt := rand_index_lt e.r e.d _ hr hlen
  have hget : (getAvailableThemes allThemes (cleanupStaleInstances e.now e.instancesFile)).get?
      (e.r * (getAvailableThemes allThemes (cleanupStaleInstances e.now e.instancesFile)).length / e.d) =
      some ((getAvailableThemes allThemes (cleanupStaleInstances e.now e.instancesFile)).get ⟨_, hlt⟩) :=
    List.get?_eq_get hlt
  have hkmem : (getAvailableThemes allThemes
      (cleanupStaleInstances e.now e.instancesFile)).get ⟨_, hlt⟩ ∈ allThemes :=
    getAvailableThemes_subset _ _ _ (List.get_mem _ _ hlt)
  have hkne : (getAvailableThemes allThemes
      (cleanupStaleInstances e.now e.instancesFile)).get ⟨_, hlt⟩ ≠ "" := by
    intro hk
    exact hnoemp (hk ▸ hkmem)
  have hd1 := determineProfile_random_with_tty allThemes e t h1 h2 h3 h4 h5
  rw [hget] at hd1
  have ha1 : assignThemeToInstance allThemes pid1 e =
      { theme := some ((getAvailableThemes allThemes
          (cleanupStaleInstances e.now e.instancesFile)).get ⟨_, hlt⟩),
        source := "random",
        instancesFile := ⟨jsInsert (cleanupStaleInstances e.now e.instancesFile).instances pid1
          { theme := some ((getAvailableThemes allThemes
              (cleanupStaleInstances e.now e.instancesFile)).get ⟨_, hlt⟩),
            startedAt := e.now }⟩,
        ttyProfiles := jsInsert e.ttyProfiles t ((getAvailableThemes allThemes
          (cleanupStaleInstances e.now e.instancesFile)).get ⟨_, hlt⟩) } := by
    simp [assignThemeToInstance, hmiss1, hd1]
  refine ⟨by rw [ha1], (getAvailableThemes allThemes
      (cleanupStaleInstances e.now e.instancesFile)).get ⟨_, hlt⟩, by rw [ha1], hkmem, ?_⟩
  intro e2 g1 g2 g3 g4 gmiss
  have hgp : getTtyProfile e2.ttyProfiles t =
      some ((getAvailableThemes allThemes
        (cleanupStaleInstances e.now e.instancesFile)).get ⟨_, hlt⟩) := by
    rw [g4, ha1]
    simp only [getTtyProfile, jsLookup_insert_self]
    rw [if_neg]
    simpa using hkne
  have hd2 := determineProfile_tty_hit allThemes e2 t _ g1 g2 g3 h4 hgp hkne hkmem
  constructor
  · simp [assignThemeToInstance, gmiss, hd2]
  · simp [assignThemeToInstance, gmiss, hd2]

/-- Witness for C3: the first process in a fresh terminal `tty-A` rolls a
random theme of the two-theme store and the second process in the same
terminal gets the same key back from the `tty` tier. -/
theorem randomPick_persists_to_tty_mapping_witness :
    (assignThemeToInstance ["marine", "ghost"] "100"
      { envProfile := none, dirProfile := none, tty := some "tty-A", ttyProfiles := [],
        instancesFile := ⟨[]⟩, now := 0, r := 1, d := 3 }).source = "random" ∧
    ∃ k, (assignThemeToInstance ["marine", "ghost"] "100"
        { envProfile := none, dirProfile := none, tty := some "tty-A", ttyProfiles := [],
          instancesFile := ⟨[]⟩, now := 0, r := 1, d := 3 }).theme = some k ∧
      k ∈ ["marine", "ghost"] ∧
      (assignThemeToInstance ["marine", "ghost"] "200"
        { envProfile := none, dirProfile := none, tty := some "tty-A",
          ttyProfiles := (assignThemeToInstance ["marine", "ghost"] "100"
            { envProfile := none, dirProfile := none, tty := some "tty-A", ttyProfiles := [],
              instancesFile := ⟨[]⟩, now := 0, r := 1, d := 3 }).ttyProfiles,
          instancesFile := (assignThemeToInstance ["marine", "ghost"] "100"
            { envProfile := none, dirProfile := none, tty := some "tty-A", ttyProfiles := [],
              instancesFile := ⟨[]⟩, now := 0, r := 1, d := 3 }).instancesFile,
          now := 1000, r := 2, d := 5 }).theme = some k ∧
      (assignThemeToInstance ["marine", "ghost"] "200"
        { envProfile := none, dirProfile := none, tty := some "tty-A",
          ttyProfiles := (assignThemeToInstance ["marine", "ghost"] "100"
            { envProfile := none, dirProfile := none, tty := some "tty-A", ttyProfiles := [],
              instancesFile := ⟨[]⟩, now := 0, r := 1, d := 3 }).ttyProfiles,
          instancesFile := (assignThemeToInstance ["marine", "ghost"] "100"
            { envProfile := none, dirProfile := none, tty := some "tty-A", ttyProfiles := [],
              instancesFile := ⟨[]⟩, now := 0, r := 1, d := 3 }).instancesFile,
          now := 1000, r := 2, d := 5 }).source = "tty" := by
  obtain ⟨hsrc, k, hth, hmem, hnext⟩ :=
    randomPick_persists_to_tty_mapping ["marine", "ghost"]
      { envProfile := none, dirProfile := none, tty := some "tty-A", ttyProfiles := [],
        instancesFile := ⟨[]⟩, now := 0, r := 1, d := 3 }
      "100" "200" "tty-A" rfl rfl rfl (by decide) (by decide) (by decide) (by decide)
      (by decide) (by decide)
  obtain ⟨h2th, h2src⟩ := hnext
    { envProfile := none, dirProfile := none, tty := some "tty-A",
      ttyProfiles := (assignThemeToInstance ["marine", "ghost"] "100"
        { envProfile := none, dirProfile := none, tty := some "tty-A", ttyProfiles := [],
          instancesFile := ⟨[]⟩, now := 0, r := 1, d := 3 }).ttyProfiles,
      instancesFile := (assignThemeToInstance ["marine", "ghost"] "100"
        { envProfile := none, dirProfile := none, tty := some "tty-A", ttyProfiles := [],
          instancesFile := ⟨[]⟩, now := 0, r := 1, d := 3 }).instancesFile,
      now := 1000, r := 2, d := 5 } rfl rfl rfl rfl (by decide)
  exact ⟨hsrc, k, hth, hmem, h2th, h2src⟩

/-! ## Theme store (src/lib/themes.ts) -/

/-- A parsed YAML value of a sound-category field: a string scalar, a list
of strings, or YAML null. -/
inductive YamlVal
  | str (s : String)
  | list (l : List String)
  | nullv
deriving Repr, DecidableEq

/-- The `sounds` section of a parsed theme definition file; `none` models
an absent field. -/
structure YamlSounds where
  announce : Option YamlVal
  question : Option YamlVal
  idle : Option YamlVal
  error : Option YamlVal
deriving Repr, DecidableEq

/-- A parsed theme definition document as `parseYaml` returns it. -/
structure YamlTheme where
  name : Option String
  description : Option String
  sounds : Option YamlSounds
deriving Repr, DecidableEq

/-- JS `x || ""` on a sounds field: a falsy value (absent, null, empty
string) becomes `""`; anything else, including any array, passes through
unchanged. -/
def jsOrEmptyStr : Option YamlVal → YamlVal
  | none => .str ""
  | some .nullv => .str ""
  | some (.str s) => if s == "" then .str "" else .str s
  | some (.list l) => .list l

/-- JS `x || []` on a sounds field (an empty array is truthy and passes
through). -/
def jsOrEmptyList : Option YamlVal → YamlVal
  | none => .list []
  | some .nullv => .list []
  | some (.str s) => if s == "" then .list [] else .str s
  | some (.list l) => .list l

/-- Runtime shape of the `sounds` object that `loadThemeFromYaml` builds:
`announce`/`question` come from `data.sounds.announce || ""` (so a scalar
stays a scalar) and `idle`/`error` from `... || []`. -/
structure SoundsRec where
  announce : YamlVal
  question : YamlVal
  idle : YamlVal
  error : YamlVal
deriving Repr, DecidableEq

/-- A loaded theme record (`SoundTheme` in src/lib/themes.ts). -/
structure SoundTheme where
  name : String
  description : String
  sounds : SoundsRec
deriving Repr, DecidableEq

/-- True exactly for array-valued runtime values. -/
def YamlVal.isArr : YamlVal → Bool
  | .list _ => true
  | _ => false

/-- Embeds `loadThemeFromYaml`: a `none` input models a read or YAML-parse
failure (the catch branch); a document with falsy `name` or `sounds` is
rejected; otherwise the record is built with JS `||` defaulting and no
other transformation of the sound fields. -/
def loadThemeFromYaml : Option YamlTheme → Option SoundTheme
  | none => none
  | some data =>
    if !(jsTruthy data.name) then none
    else
      match data.sounds with
      | none => none
      | some snd =>
        some { name := data.name.getD "",
               description := data.description.getD "",
               sounds := { announce := jsOrEmptyStr snd.announce,
                           question := jsOrEmptyStr snd.question,
                           idle := jsOrEmptyList snd.idle,
                           error := jsOrEmptyList snd.error } }

/-- The on-disk theme cache document `{ version, buildTime, themes }`. -/
structure ThemeCacheData where
  version : Int
  buildTime : Int
  themes : List (String × SoundTheme)
deriving Repr, DecidableEq

/-- The cache schema version expected by the running code. -/
def CACHE_VERSION : Int := 1

/-- One entry of `readdirSync(THEMES_DIR)` with the data the loader reads
from it: file name, `mtimeMs`, and parsed YAML content (`none` models a
read or parse failure). -/
structure DirEntry where
  name : String
  mtimeMs : Int
  parsed : Option YamlTheme
deriving Repr, DecidableEq

/-- Filesystem and module state visible to `loadThemes`: the module-level
`cachedThemes` memo, the cache file (`none` missing, `.error ()` an
unparsable JSON body), whether the themes directory exists, and its
entries. -/
structure ThemesWorld where
  cachedThemes : Option (List (String × SoundTheme))
  cacheFile : Option (Except Unit ThemeCacheData)
  dirExists : Bool
  files : List DirEntry

/-- A definition file: `.yaml` or `.yml` extension. -/
def hasYamlExt (s : String) : Bool := jsEndsWith s ".yaml" || jsEndsWith s ".yml"

/-- Embeds `getThemesModTime`: the maximum `mtimeMs` over definition files,
0 when the directory is missing. -/
def getThemesModTime (w : ThemesWorld) : Int :=
  if w.dirExists then
    w.files.foldl (fun acc f =>
      if hasYamlExt f.name then (if f.mtimeMs > acc then f.mtimeMs else acc) else acc) 0
  else 0

/-- Embeds `loadCache`: a missing file, an unparsable body, or a version
other than `CACHE_VERSION` all yield null. -/
def loadCache (w : ThemesWorld) : Option ThemeCacheData :=
  match w.cacheFile with
  | none => none
  | some (Except.error _) => none
  | some (Except.ok c) => if c.version != CACHE_VERSION then none else some c

/-- Embeds the key derivation `basename(file, ".yaml" or ".yml")`. -/
def themeKeyOfFile (s : String) : String :=
  if jsEndsWith s ".yaml" then jsDropRight s 5 else jsDropRight s 4

/-- Embeds `loadAllThemesFromYaml`: scan the directory, parse each
definition file, skip rejected ones, key by filename stem. -/
def loadAllThemesFromYaml (w : ThemesWorld) : List (String × SoundTheme) :=
  if !w.dirExists then []
  else
    w.files.foldl (fun themes f =>
      if hasYamlExt f.name then
        match loadThemeFromYaml f.parsed with
        | some t => jsInsert themes (themeKeyOfFile f.name) t
        | none => themes
      else themes) []

/-- Result of one `loadThemes` call: the returned map, the new in-memory
memo, and the cache document written by `saveCache`, if any. -/
structure LoadResult where
  themes : List (String × SoundTheme)
  cachedThemes : Option (List (String × SoundTheme))
  cacheWritten : Option ThemeCacheData
deriving Repr, DecidableEq

/-- Embeds `loadThemes`, with `now` the `Date.now()` that `saveCache`
stamps into a rebuilt cache. -/
def loadThemes (now : Int) (w : ThemesWorld) : LoadResult :=
  match w.cachedThemes with
  | some m => { themes := m, cachedThemes := some m, cacheWritten := none }
  | none =>
    match loadCache w with
    | some c =>
      if c.buildTime > getThemesModTime w then
        { themes := c.themes, cachedThemes := some c.themes, cacheWritten := none }
      else
        { themes := loadAllThemesFromYaml w,
          cachedThemes := some (loadAllThemesFromYaml w),
          cacheWritten := some { version := CACHE_VERSION, buildTime := now,
                                 themes := loadAllThemesFromYaml w } }
    | none =>
      { themes := loadAllThemesFromYaml w,
        cachedThemes := some (loadAllThemesFromYaml w),
        cacheWritten := some { version := CACHE_VERSION, buildTime := now,
                               themes := loadAllThemesFromYaml w } }


theorem loadCache_eq_some_iff (w : ThemesWorld) (c : ThemeCacheData) :
    loadCache w = some c ↔
      w.cacheFile = some (Except.ok c) ∧ c.version = CACHE_VERSION := by
  constructor
  · intro h
    unfold loadCache at h
    rcases hw : w.cacheFile with _ | ec
    · rw [hw] at h
      simp at h
    · rcases ec with u | c2
      · rw [hw] at h
        simp at h
      · rw [hw] at h
        by_cases hv : c2.version = CACHE_VERSION
        · simp [hv] at h
          subst h
          exact ⟨rfl, hv⟩
        · simp [bne_iff_ne, hv] at h
  · rintro ⟨hcf, hv⟩
    unfold loadCache
    rw [hcf]
    simp [hv]

/-- Claim C5: on a cold in-memory memo, `loadThemes` trusts the on-disk
cache (returns its themes, writes nothing) iff the cache file parses, its
schema version equals `CACHE_VERSION`, and its build timestamp is strictly
newer than the newest definition-file modification time; otherwise —
including when the build timestamp equals the newest modification time —
the themes are rebuilt from the definition files and the cache is
rewritten with them, so a cache older than a theme file's modification
time is never returned. -/
theorem loadThemes_trusts_cache_iff :
    ∀ (now : Int) (w : ThemesWorld), w.cachedThemes = none →
      ((loadThemes now w).cacheWritten = none ↔
        ∃ c, w.cacheFile = some (Except.ok c) ∧ c.version = CACHE_VERSION ∧
          c.buildTime > getThemesModTime w)
      ∧ (∀ c, w.cacheFile = some (Except.ok c) → c.version = CACHE_VERSION →
          c.buildTime > getThemesModTime w →
          loadThemes now w = { themes := c.themes, cachedThemes := some c.themes,
                               cacheWritten := none })
      ∧ ((loadThemes now w).cacheWritten ≠ none →
          loadThemes now w =
            { themes := loadAllThemesFromYaml w,
              cachedThemes := some (loadAllThemesFromYaml w),
              cacheWritten := some { version := CACHE_VERSION, buildTime := now,
                                     themes := loadAllThemesFromYaml w } }) := by
  intro now w hmemo
  refine ⟨⟨?_, ?_⟩, ?_, ?_⟩
  · intro hnone
    rcases hlc : loadCache w with _ | c
    · have hred : loadThemes now w =
          { themes := loadAllThemesFromYaml w,
            cachedThemes := some (loadAllThemesFromYaml w),
            cacheWritten := some { version := CACHE_VERSION, buildTime := now,
                                   themes := loadAllThemesFromYaml w } } := by
        simp [loadThemes, hmemo, hlc]
      rw [hred] at hnone
      simp at hnone
    · by_cases hb : c.buildTime > getThemesModTime w
      · obtain ⟨hcf, hv⟩ := (loadCache_eq_some_iff w c).mp hlc
        exact ⟨c, hcf, hv, hb⟩
      · have hred : loadThemes now w =
            { themes := loadAllThemesFromYaml w,
              cachedThemes := some (loadAllThemesFromYaml w),
              cacheWritten := some { version := CACHE_VERSION, buildTime := now,
                                     themes := loadAllThemesFromYaml w } } := by
          simp [loadThemes, hmemo, hlc, hb]
        rw [hred] at hnone
        simp at hnone
  · rintro ⟨c, hcf, hv, hb⟩
    have hlc : loadCache w = some c := (loadCache_eq_some_iff w c).mpr ⟨hcf, hv⟩
    simp [loadThemes, hmemo, hlc, hb]
  · intro c hcf hv hb
    have hlc : loadCache w = some c := (loadCache_eq_some_iff w c).mpr ⟨hcf, hv⟩
    simp [loadThemes, hmemo, hlc, hb]
  · intro hcw
    rcases hlc : loadCache w with _ | c
    · simp [loadThemes, hmemo, hlc]
    · by_cases hb : c.buildTime > getThemesModTime w
      · exfalso
        apply hcw
        simp [loadThemes, hmemo, hlc, hb]
      · simp [loadThemes, hmemo, hlc, hb]

/-- Witness for C5: a cache built at time 100 over one definition file
modified at time 50 is trusted; the same cache over the file modified at
time 100 (build timestamp equal to the newest modification time) is not
trusted — a rebuild is triggered and the cache rewritten. -/
theorem loadThemes_trusts_cache_iff_witness :
    loadThemes 200
      { cachedThemes := none,
        cacheFile := some (Except.ok { version := 1, buildTime := 100, themes := [] }),
        dirExists := true,
        files := [{ name := "marine.yaml", mtimeMs := 50,
                    parsed := some { name := some "Marine", description := none,
                                     sounds := some { announce := some (.str "a.mp3"),
                                                      question := some (.str "q.mp3"),
                                                      idle := some (.list []),
                                                      error := some (.list []) } } }] } =
      { themes := [], cachedThemes := some [], cacheWritten := none }
    ∧ (loadThemes 200
      { cachedThemes := none,
        cacheFile := some (Except.ok { version := 1, buildTime := 100, themes := [] }),
        dirExists := true,
        files := [{ name := "marine.yaml", mtimeMs := 100,
                    parsed := some { name := some "Marine", description := none,
                                     sounds := some { announce := some (.str "a.mp3"),
                                                      question := some (.str "q.mp3"),
                                                      idle := some (.list []),
                                                      error := some (.list []) } } }] }).cacheWritten ≠
        none := by
  constructor
  · exact (loadThemes_trusts_cache_iff 200 _ rfl).2.1
      { version := 1, buildTime := 100, themes := [] } rfl (by decide) (by decide)
  · have h := (loadThemes_trusts_cache_iff 200
      { cachedThemes := none,
        cacheFile := some (Except.ok { version := 1, buildTime := 100, themes := [] }),
        dirExists := true,
        files := [{ name := "marine.yaml", mtimeMs := 100,
                    parsed := some { name := some "Marine", description := none,
                                     sounds := some { announce := some (.str "a.mp3"),
                                                      question := some (.str "q.mp3"),
                                                      idle := some (.list []),
                                                      error := some (.list []) } } }] } rfl).1
    intro hnone
    obtain ⟨c, hc, hv, hb⟩ := h.mp hnone
    have hcv : ({ version := 1, buildTime := 100, themes := [] } : ThemeCacheData) = c := by
      injection hc with h1
      injection h1 with h2
    rw [← hcv] at hb
    revert hb
    decide

/-- Claim C6 (code check): `loadThemeFromYaml` accepts a definition file
whose `announce` and `question` are scalars, but does not normalize them:
the loaded record keeps the scalar strings, not single-element lists, in
contradiction with the specified (and separately unit-tested)
`normalizeToArray` behavior. -/
theorem loadThemeFromYaml_keeps_scalar_sounds :
    loadThemeFromYaml (some
        { name := some "Test Theme", description := some "d",
          sounds := some { announce := some (.str "a.mp3"),
                           question := some (.str "q.mp3"),
                           idle := some (.list ["i.mp3"]),
                           error := some (.list ["e.mp3"]) } }) =
      some { name := "Test Theme", description := "d",
             sounds := { announce := .str "a.mp3", question := .str "q.mp3",
                         idle := .list ["i.mp3"], error := .list ["e.mp3"] } }
    ∧ (YamlVal.str "a.mp3").isArr = false
    ∧ (YamlVal.str "q.mp3").isArr = false := by
  refine ⟨?_, rfl, rfl⟩
  decide

/-! ## Focus detector (part_000, `WINDOW FOCUS DETECTION & TMUX ALERT`) -/

/-- One pane as reported by `wezterm cli list --format json`. -/
structure Pane where
  pane_id : Int
  window_id : Int
  window_title : String
deriving Repr, DecidableEq

/-- External probe identities, used to record which probes a call ran. -/
inductive Probe
  | osaFrontmost
  | osaFrontWindow
  | wezList
  | tmuxDisplay
deriving Repr, DecidableEq

/-- The environment and probe oracle visible to `isPaneActive`: the window
id captured at startup, the `TMUX` and `TMUX_PANE` variables, and the
outcome of each external command, where `.error ()` models a thrown error
or timeout. `frontApp` is the osascript frontmost-application query,
`focusedTitle` the front-window-name query, `wezPanes` the parsed
`wezterm cli list` output, and `tmuxFlags` the trimmed
`session_attached window_active pane_active` answer. -/
structure FocusWorld where
  cachedWindowId : Option Int
  tmuxEnv : Option String
  tmuxPaneEnv : Option String
  frontApp : Except Unit String
  focusedTitle : Except Unit String
  wezPanes : Except Unit (List Pane)
  tmuxFlags : Except Unit String

/-- Embeds `isOurWezTermWindowActive` together with the ordered list of
probes it ran; any probe error makes the surrounding `try` return true. -/
def isOurWezTermWindowActive (w : FocusWorld) : Bool × List Probe :=
  match w.frontApp with
  | Except.error _ => (true, [Probe.osaFrontmost])
  | Except.ok frontAppName =>
    if !(jsIncludes (jsToLower frontAppName) "wezterm") then (false, [Probe.osaFrontmost])
    else
      match w.focusedTitle with
      | Except.error _ => (true, [Probe.osaFrontmost, Probe.osaFrontWindow])
      | Except.ok focusedTitle =>
        match w.wezPanes with
        | Except.error _ => (true, [Probe.osaFrontmost, Probe.osaFrontWindow, Probe.wezList])
        | Except.ok panes =>
          match panes.filter (fun p => some p.window_id == w.cachedWindowId) with
          | [] => (true, [Probe.osaFrontmost, Probe.osaFrontWindow, Probe.wezList])
          | q :: _ => (focusedTitle == q.window_title,
                       [Probe.osaFrontmost, Probe.osaFrontWindow, Probe.wezList])

/-- Embeds `isTmuxPaneActive`: query the three booleans
`session_attached window_active pane_active` for the pane in one call; all
three must be `1`; a missing pane id or a probe error defaults to
active. -/
def isTmuxPaneActive (w : FocusWorld) : Bool × List Probe :=
  match w.tmuxPaneEnv with
  | none => (true, [])
  | some tp =>
    if tp == "" then (true, [])
    else
      match w.tmuxFlags with
      | Except.error _ => (true, [Probe.tmuxDisplay])
      | Except.ok out =>
        ((((jsSplit out ' ').get? 0 == some "1") &&
          ((jsSplit out ' ').get? 1 == some "1") &&
          ((jsSplit out ' ').get? 2 == some "1")),
         [Probe.tmuxDisplay])

/-- The fixed allow-list of terminal application names. -/
def TERMINAL_APPS : List String :=
  ["wezterm-gui", "WezTerm", "Terminal", "iTerm2", "iTerm",
   "Alacritty", "kitty", "Ghostty", "Hyper"]

/-- Embeds `isTerminalAppFocused`: does the frontmost application name
contain any allow-listed terminal name (case-insensitively)? Errors
default to active. -/
def isTerminalAppFocused (w : FocusWorld) : Bool × List Probe :=
  match w.frontApp with
  | Except.error _ => (true, [Probe.osaFrontmost])
  | Except.ok result =>
    (TERMINAL_APPS.any (fun app => jsIncludes (jsToLower result) (jsToLower app)),
     [Probe.osaFrontmost])

/-- Embeds `isPaneActive` with the ordered trace of probes the call ran:
with a captured window id, stage 1 checks the WezTerm window and returns
false immediately when it is not active, refining through tmux only when
it is; without a captured id it falls back to tmux and then to the
terminal-app check. -/
def isPaneActive (w : FocusWorld) : Bool × List Probe :=
  match w.cachedWindowId with
  | some _ =>
    let res := isOurWezTermWindowActive w
    if !res.1 then (false, res.2)
    else if jsTruthy w.tmuxEnv then
      let res2 := isTmuxPaneActive w
      (res2.1, res.2 ++ res2.2)
    else (true, res.2)
  | none =>
    if jsTruthy w.tmuxEnv then isTmuxPaneActive w
    else isTerminalAppFocused w

/-- Claim C8: when a window id was captured at startup and the frontmost
application probe answers with an application other than WezTerm,
`isPaneActive` returns false immediately: the only probe run is the
frontmost query, so the multiplexer pane-state probe is never invoked and
the result is false regardless of what that probe would report. -/
theorem paneActive_short_circuits_on_not_frontmost :
    ∀ (w : FocusWorld) (i : Int) (s : String),
      w.cachedWindowId = some i → w.frontApp = Except.ok s →
      jsIncludes (jsToLower s) "wezterm" = false →
      isPaneActive w = (false, [Probe.osaFrontmost]) ∧
      Probe.tmuxDisplay ∉ (isPaneActive w).2 := by
  intro w i s hc hf hni
  have hwz : isOurWezTermWindowActive w = (false, [Probe.osaFrontmost]) := by
    simp [isOurWezTermWindowActive, hf, hni]
  constructor
  · simp [isPaneActive, hc, hwz]
  · simp [isPaneActive, hc, hwz]

/-- Witness for C8: window id 7 was captured, the frontmost application is
Safari, and the tmux probe would even report the pane as fully active —
the result is still false after the frontmost probe alone. -/
theorem paneActive_short_circuits_on_not_frontmost_witness :
    isPaneActive
      { cachedWindowId := some 7, tmuxEnv := some "/tmp/tmux-1000/default,123,0",
        tmuxPaneEnv := some "%5", frontApp := Except.ok "Safari",
        focusedTitle := Except.ok "other window", wezPanes := Except.ok [],
        tmuxFlags := Except.ok "1 1 1" } = (false, [Probe.osaFrontmost]) ∧
    Probe.tmuxDisplay ∉ (isPaneActive
      { cachedWindowId := some 7, tmuxEnv := some "/tmp/tmux-1000/default,123,0",
        tmuxPaneEnv := some "%5", frontApp := Except.ok "Safari",
        focusedTitle := Except.ok "other window", wezPanes := Except.ok [],
        tmuxFlags := Except.ok "1 1 1" }).2 :=
  paneActive_short_circuits_on_not_frontmost _ 7 "Safari" rfl rfl (by decide)

/-! ## Playback gate (part_000, `playSound` / `playSoundAlways`) -/

/-- The externally visible steps of a gate call, in order: the focus
check, the tmux alert side effect, and the delegation to the sound-player
collaborator (`force` distinguishes the always form's options). -/
inductive GateAction
  | focusCheck (active : Bool)
  | alertSet
  | delegate (path : String) (force : Bool)
deriving Repr, DecidableEq

/-- World for the gate: the focus world consulted by `isPaneActive`, the
in-memory `hasAlert` flag, and the probes of `setTmuxAlert` (the trimmed
current window name and the outcome of `tmux rename-window`). -/
structure GateWorld where
  focus : FocusWorld
  hasAlert : Bool
  windowName : Except Unit String
  renameOk : Except Unit Unit

/-- The `"!! "` alert window-name prefix. -/
def ALERT_PREFIX : String := "!! "

/-- Embeds `setTmuxAlert`, returning the `hasAlert` flag after the call: a
no-op without `TMUX`/`TMUX_PANE`, with the flag already set, when the
window name already carries the prefix, or when a probe throws. -/
def setTmuxAlert (g : GateWorld) : Bool :=
  if !(jsTruthy g.focus.tmuxEnv) || !(jsTruthy g.focus.tmuxPaneEnv) || g.hasAlert then
    g.hasAlert
  else
    match g.windowName with
    | Except.error _ => g.hasAlert
    | Except.ok currentName =>
      if jsStartsWith currentName ALERT_PREFIX then g.hasAlert
      else
        match g.renameOk with
        | Except.error _ => g.hasAlert
        | Except.ok _ => true

/-- Embeds the gated `playSound` of part_000: nothing happens when the
pane is active; otherwise the tmux alert is set and then the sound-player
collaborator is invoked. The first component is the ordered list of
externally visible actions, the second the `hasAlert` flag afterwards. -/
def playSound (g : GateWorld) (soundPath : String) : List GateAction × Bool :=
  if (isPaneActive g.focus).1 then
    ([GateAction.focusCheck true], g.hasAlert)
  else
    ([GateAction.focusCheck false, GateAction.alertSet,
      GateAction.delegate soundPath false], setTmuxAlert g)

/-- Embeds `playSoundAlways`: unconditional delegation with `force: true`,
no focus check, no alert handling. -/
def playSoundAlways (g : GateWorld) (soundPath : String) : List GateAction × Bool :=
  ([GateAction.delegate soundPath true], g.hasAlert)

/-- Claim C9: when the focus detector reports the pane active, the gated
`playSound` neither delegates to the sound player nor changes the alert
flag; when the pane is inactive it performs the alert side effect before
delegating; and `playSoundAlways` never runs the focus check and never
changes the alert flag, for every input. -/
theorem playSound_gate_frame :
    (∀ (g : GateWorld) (p : String), (isPaneActive g.focus).1 = true →
      playSound g p = ([GateAction.focusCheck true], g.hasAlert) ∧
      (∀ q b, GateAction.delegate q b ∉ (playSound g p).1) ∧
      (playSound g p).2 = g.hasAlert)
    ∧ (∀ (g : GateWorld) (p : String), (isPaneActive g.focus).1 = false →
      playSound g p = ([GateAction.focusCheck false, GateAction.alertSet,
        GateAction.delegate p false], setTmuxAlert g))
    ∧ (∀ (g : GateWorld) (p : String),
      playSoundAlways g p = ([GateAction.delegate p true], g.hasAlert) ∧
      (∀ b, GateAction.focusCheck b ∉ (playSoundAlways g p).1) ∧
      (playSoundAlways g p).2 = g.hasAlert) := by
  refine ⟨?_, ?_, ?_⟩
  · intro g p h
    refine ⟨by simp [playSound, h], ?_, by simp [playSound, h]⟩
    intro q b
    simp [playSound, h]
  · intro g p h
    simp [playSound, h]
  · intro g p
    refine ⟨rfl, ?_, rfl⟩
    intro b
    simp [playSoundAlways]

/-- Witness for C9: with the pane active (WezTerm frontmost, matching
window title, no tmux), the gated call does nothing; with Safari frontmost
(pane inactive) it sets the alert and then delegates; the always form
delegates with `force` and leaves the alert flag untouched. -/
theorem playSound_gate_frame_witness :
    playSound
      { focus := { cachedWindowId := some 7, tmuxEnv := none, tmuxPaneEnv := none,
                   frontApp := Except.ok "wezterm-gui",
                   focusedTitle := Except.ok "w1",
                   wezPanes := Except.ok [{ pane_id := 1, window_id := 7, window_title := "w1" }],
                   tmuxFlags := Except.error () },
        hasAlert := false, windowName := Except.ok "win", renameOk := Except.ok () } "s.mp3" =
      ([GateAction.focusCheck true], false)
    ∧ playSound
      { focus := { cachedWindowId := some 7, tmuxEnv := none, tmuxPaneEnv := none,
                   frontApp := Except.ok "Safari",
                   focusedTitle := Except.ok "w1",
                   wezPanes := Except.ok [{ pane_id := 1, window_id := 7, window_title := "w1" }],
                   tmuxFlags := Except.error () },
        hasAlert := false, windowName := Except.ok "win", renameOk := Except.ok () } "s.mp3" =
      ([GateAction.focusCheck false, GateAction.alertSet, GateAction.delegate "s.mp3" false],
       setTmuxAlert
        { focus := { cachedWindowId := some 7, tmuxEnv := none, tmuxPaneEnv := none,
                     frontApp := Except.ok "Safari",
                     focusedTitle := Except.ok "w1",
                     wezPanes := Except.ok [{ pane_id := 1, window_id := 7, window_title := "w1" }],
                     tmuxFlags := Except.error () },
          hasAlert := false, windowName := Except.ok "win", renameOk := Except.ok () })
    ∧ playSoundAlways
      { focus := { cachedWindowId := some 7, tmuxEnv := none, tmuxPaneEnv := none,
                   frontApp := Except.ok "Safari",
                   focusedTitle := Except.ok "w1",
                   wezPanes := Except.ok [{ pane_id := 1, window_id := 7, window_title := "w1" }],
                   tmuxFlags := Except.error () },
        hasAlert := false, windowName := Except.ok "win", renameOk := Except.ok () } "a.mp3" =
      ([GateAction.delegate "a.mp3" true], false) := by
  refine ⟨?_, ?_, ?_⟩
  · exact (playSound_gate_frame.1 _ "s.mp3" (by decide)).1
  · exact playSound_gate_frame.2.1 _ "s.mp3" (by decide)
  · exact (playSound_gate_frame.2.2 _ "a.mp3").1
